import Mathlib

/-!
Verification of the color-theme manager of this repository
(`src/glances/outputs/glances_colors.py`, class `GlancesColors`).

The embedding below is a shallow, executable translation of the Python
class.  Python's shared class attributes (`forground`, `background`,
`foreground`, `mode`) together with the instance style attributes become
one explicit record `ColorsState`; the curses backend's pair registry is
an association list (most recent definition first) and every backend call
is also logged in an event trace so that ordering properties can be
stated.  Python integers are `Int`; Python's bitwise `|` on them is the
two's-complement `pyOr` below.  The concrete values of the curses
constants are the standard ncurses ones.
-/

namespace GlancesColors

/-- Natural-number bit difference: the bits of `m` that are not in `n`
(`m AND NOT n`).  Since `m &&& n` keeps exactly the bits of `m` that are
also in `n`, subtracting it from `m` clears them. -/
def ldiff (m n : Nat) : Nat := m - (m &&& n)

/-- Python's bitwise `|` on arbitrary-precision integers, by cases on the
two's-complement sign. -/
def pyOr : Int → Int → Int
  | .ofNat m, .ofNat n => .ofNat (m ||| n)
  | .ofNat m, .negSucc n => .negSucc (ldiff n m)
  | .negSucc m, .ofNat n => .negSucc (ldiff m n)
  | .negSucc m, .negSucc n => .negSucc (m &&& n)

namespace Curses

/-- curses.COLOR_BLACK -/
def COLOR_BLACK : Int := 0

/-- curses.COLOR_RED -/
def COLOR_RED : Int := 1

/-- curses.COLOR_GREEN -/
def COLOR_GREEN : Int := 2

/-- curses.COLOR_YELLOW -/
def COLOR_YELLOW : Int := 3

/-- curses.COLOR_BLUE -/
def COLOR_BLUE : Int := 4

/-- curses.COLOR_MAGENTA -/
def COLOR_MAGENTA : Int := 5

/-- curses.COLOR_CYAN -/
def COLOR_CYAN : Int := 6

/-- curses.COLOR_WHITE -/
def COLOR_WHITE : Int := 7

/-- curses.A_NORMAL, the plain style with no attribute bits. -/
def A_NORMAL : Int := 0

/-- curses.A_BOLD (ncurses bit 21). -/
def A_BOLD : Int := 2 ^ 21

/-- curses.A_UNDERLINE (ncurses bit 17). -/
def A_UNDERLINE : Int := 2 ^ 17

/-- curses.A_REVERSE (ncurses bit 18). -/
def A_REVERSE : Int := 2 ^ 18

/-- curses.A_PROTECT (ncurses bit 24). -/
def A_PROTECT : Int := 2 ^ 24

/-- curses.color_pair n: the attribute bits selecting pair slot `n`
(ncurses stores the pair number in bits 8..15). -/
def color_pair (n : Nat) : Int := Int.ofNat (n <<< 8)

end Curses

/-- The pair-slot number encoded in a (non-negative) style code: bits
8..15 of the ncurses attribute word.  Style codes built from
`Curses.color_pair` and emphasis bits are non-negative, which is the only
place this is used. -/
def pairIndexOf (style : Int) : Nat := (style.toNat >>> 8) &&& 255

/-- The CLI flags the class reads from `args`. -/
structure Args where
  disable_bold : Bool
  disable_bg : Bool
deriving DecidableEq, Repr

/-- The curses backend capabilities and failure behaviour:
`has_colors` is `curses.has_colors()`, `COLORS` is `curses.COLORS`,
`ext_pair_fails` is true when the backend raises on the cyan/yellow
`init_pair(9/10)` definitions (line 137-138 of the source), and
`sep_fails` is true when the backend raises inside the slot-11
`init_color`/`init_pair` block (line 147-149, the TMUX limitation). -/
structure Caps where
  has_colors : Bool
  COLORS : Nat
  ext_pair_fails : Bool
  sep_fails : Bool
deriving DecidableEq, Repr

/-- One logged call into the curses backend.  The `bkgd` event records
the slot used and the pair content registered for that slot at the time
of the call. -/
inductive Ev
  | init_pair (slot : Nat) (fg bg : Int)
  | init_color (slot : Nat) (r g b : Nat)
  | bkgd (slot : Nat) (pair : Option (Int × Int))
  | clear
  | refresh
deriving DecidableEq, Repr

/-- The state of a `GlancesColors` object together with the curses
backend state.  `forground`/`background` are the (misspelled in the
source) class attributes read by `__init__`, `__white_init__`,
`__define_colors` and `dark_mode`; `foreground` is the separate,
correctly spelled class attribute that only `switchLDmode` assigns and
only `light_mode` reads (it does not exist before the first switch,
hence `Option`).  The fifteen capitalized fields are the instance style
attributes; `pairs` is the backend pair registry (most recent definition
first) and `trace` the backend call log. -/
structure ColorsState where
  forground : Int
  background : Int
  foreground : Option Int
  mode : String
  A_BOLD : Int
  DEFAULT : Int
  OK_LOG : Int
  NICE : Int
  CPU_TIME : Int
  CAREFUL_LOG : Int
  WARNING_LOG : Int
  CRITICAL_LOG : Int
  OK : Int
  CAREFUL : Int
  WARNING : Int
  CRITICAL : Int
  INFO : Int
  FILTER : Int
  SELECTED : Int
  SEPARATOR : Int
  pairs : List (Nat × (Int × Int))
  trace : List Ev

/-- The state before `__init__` has run: no attribute has a meaningful
value yet (every claim goes through `glances_init` or `white_init`
first, which assign every field used afterwards), and the backend
registry and trace are empty. -/
def emptyState : ColorsState :=
  { forground := 0, background := 0, foreground := none, mode := "",
    A_BOLD := 0, DEFAULT := 0, OK_LOG := 0, NICE := 0, CPU_TIME := 0,
    CAREFUL_LOG := 0, WARNING_LOG := 0, CRITICAL_LOG := 0, OK := 0,
    CAREFUL := 0, WARNING := 0, CRITICAL := 0, INFO := 0, FILTER := 0,
    SELECTED := 0, SEPARATOR := 0, pairs := [], trace := [] }

/-- curses.init_pair: register a pair definition for a slot (shadowing
any earlier definition) and log the call. -/
def init_pair (s : ColorsState) (slot : Nat) (fg bg : Int) : ColorsState :=
  { s with pairs := (slot, (fg, bg)) :: s.pairs,
           trace := s.trace ++ [Ev.init_pair slot fg bg] }

/-- curses.init_color: log the custom color definition (its effect on
rendering is not otherwise modelled). -/
def init_color (s : ColorsState) (slot r g b : Nat) : ColorsState :=
  { s with trace := s.trace ++ [Ev.init_color slot r g b] }

/-- stdscr.bkgd(' ', curses.color_pair slot): log the repaint request
together with the pair content currently registered for the slot. -/
def bkgd (s : ColorsState) (slot : Nat) : ColorsState :=
  { s with trace := s.trace ++ [Ev.bkgd slot (s.pairs.lookup slot)] }

/-- stdscr.clear(). -/
def clear (s : ColorsState) : ColorsState :=
  { s with trace := s.trace ++ [Ev.clear] }

/-- stdscr.refresh(). -/
def refresh (s : ColorsState) : ColorsState :=
  { s with trace := s.trace ++ [Ev.refresh] }

/-- Lines 103-132 of `__define_colors`: the unconditional part.  Pair
slot 1 from the baseline; slots 2/3/5 depending on `args.disable_bg`;
slots 4/6/7/8; then the fifteen style attributes. -/
def define_colors_base (args : Args) (s0 : ColorsState) : ColorsState :=
  let s := init_pair s0 1 s0.forground s0.background
  let s :=
    if args.disable_bg then
      let s := init_pair s 2 Curses.COLOR_RED s.background
      let s := init_pair s 3 Curses.COLOR_GREEN s.background
      init_pair s 5 Curses.COLOR_MAGENTA s.background
    else
      let s := init_pair s 2 s.forground Curses.COLOR_RED
      let s := init_pair s 3 Curses.COLOR_BLACK Curses.COLOR_GREEN
      init_pair s 5 s.forground Curses.COLOR_MAGENTA
  let s := init_pair s 4 Curses.COLOR_BLUE s.background
  let s := init_pair s 6 Curses.COLOR_RED s.background
  let s := init_pair s 7 Curses.COLOR_GREEN s.background
  let s := init_pair s 8 Curses.COLOR_MAGENTA s.background
  { s with
    DEFAULT := Curses.color_pair 1,
    OK_LOG := pyOr (Curses.color_pair 3) s.A_BOLD,
    NICE := Curses.color_pair 8,
    CPU_TIME := Curses.color_pair 8,
    CAREFUL_LOG := pyOr (Curses.color_pair 4) s.A_BOLD,
    WARNING_LOG := pyOr (Curses.color_pair 5) s.A_BOLD,
    CRITICAL_LOG := pyOr (Curses.color_pair 2) s.A_BOLD,
    OK := Curses.color_pair 7,
    CAREFUL := Curses.color_pair 4,
    WARNING := pyOr (Curses.color_pair 8) s.A_BOLD,
    CRITICAL := pyOr (Curses.color_pair 6) s.A_BOLD,
    INFO := Curses.color_pair 4,
    FILTER := s.A_BOLD,
    SELECTED := s.A_BOLD,
    SEPARATOR := Curses.color_pair 1 }

/-- Lines 136-152 of `__define_colors`: the `curses.COLORS > 8` block.
If the cyan/yellow definitions raise, the handler redefines slots 9 and
10 from the baseline; FILTER/SELECTED then reference slots 9/10.  The
slot-11 block (custom gray for SEPARATOR) is guarded by a bare
`except: pass`, so on failure slot 11 stays undefined and SEPARATOR
keeps its slot-1 value. -/
def define_colors_ext (ext_pair_fails sep_fails : Bool) (s0 : ColorsState) :
    ColorsState :=
  let s :=
    if ext_pair_fails then
      let s := init_pair s0 9 s0.forground s0.background
      init_pair s 10 s.forground s.background
    else
      let s := init_pair s0 9 Curses.COLOR_CYAN s0.background
      init_pair s 10 Curses.COLOR_YELLOW s.background
  let s := { s with FILTER := pyOr (Curses.color_pair 9) s.A_BOLD,
                    SELECTED := pyOr (Curses.color_pair 10) s.A_BOLD }
  if sep_fails then s
  else
    let s := init_color s 11 500 500 500
    let s := init_pair s 11 s.forground s.background
    { s with SEPARATOR := Curses.color_pair 11 }

/-- `__define_colors` (lines 102-152). -/
def define_colors (args : Args) (caps : Caps) (s : ColorsState) : ColorsState :=
  let s := define_colors_base args s
  if 8 < caps.COLORS then define_colors_ext caps.ext_pair_fails caps.sep_fails s
  else s

/-- `__define_bw` (lines 154-176): the monochrome styles.  Note that the
source assigns the raw `background` class attribute (a color number or
the -1 sentinel), not `curses.A_NORMAL`, to DEFAULT/OK_LOG/OK/SEPARATOR.
The trailing debug prints have no state effect. -/
def define_bw (s : ColorsState) : ColorsState :=
  { s with
    DEFAULT := s.background,
    OK_LOG := s.background,
    NICE := s.A_BOLD,
    CPU_TIME := s.A_BOLD,
    CAREFUL_LOG := s.A_BOLD,
    WARNING_LOG := Curses.A_UNDERLINE,
    CRITICAL_LOG := Curses.A_REVERSE,
    OK := s.background,
    CAREFUL := s.A_BOLD,
    WARNING := Curses.A_UNDERLINE,
    CRITICAL := Curses.A_REVERSE,
    INFO := s.A_BOLD,
    FILTER := s.A_BOLD,
    SELECTED := s.A_BOLD,
    SEPARATOR := s.background }

/-- `__init__` (lines 28-61): baseline becomes the terminal-default
sentinel (-1, -1), mode becomes "light", the home-made bold is 0 when
`--disable-bold` is set.  The best-effort probe block
(start_color / use_default_colors / assume_default_colors) only
configures backend defaults; `assume_default_colors` is the documented
equivalent of `init_pair 0` on the baseline.  Then color or monochrome
styles are built depending on `curses.has_colors()`. -/
def glances_init (args : Args) (caps : Caps) (s : ColorsState) : ColorsState :=
  let s := { s with forground := -1, background := -1, mode := "light",
                    A_BOLD := if args.disable_bold then 0 else Curses.A_BOLD }
  let s := init_pair s 0 s.forground s.background
  if caps.has_colors then define_colors args caps s else define_bw s

/-- `__white_init__` (lines 63-96): identical to `__init__` except the
baseline becomes (COLOR_BLACK, COLOR_WHITE) and the mode "dark". -/
def white_init (args : Args) (caps : Caps) (s : ColorsState) : ColorsState :=
  let s := { s with forground := Curses.COLOR_BLACK,
                    background := Curses.COLOR_WHITE, mode := "dark",
                    A_BOLD := if args.disable_bold then 0 else Curses.A_BOLD }
  let s := init_pair s 0 s.forground s.background
  if caps.has_colors then define_colors args caps s else define_bw s

/-- `get` (lines 179-208): the style table, as the dict literal of the
source, in source order. -/
def get (s : ColorsState) : List (String × Int) :=
  [("DEFAULT", s.DEFAULT),
   ("UNDERLINE", Curses.A_UNDERLINE),
   ("BOLD", s.A_BOLD),
   ("SORT", pyOr Curses.A_UNDERLINE s.A_BOLD),
   ("OK", s.OK),
   ("MAX", pyOr s.OK s.A_BOLD),
   ("FILTER", s.FILTER),
   ("TITLE", s.A_BOLD),
   ("PROCESS", s.OK),
   ("PROCESS_SELECTED", pyOr s.OK Curses.A_UNDERLINE),
   ("STATUS", s.OK),
   ("NICE", s.NICE),
   ("CPU_TIME", s.CPU_TIME),
   ("CAREFUL", s.CAREFUL),
   ("WARNING", s.WARNING),
   ("CRITICAL", s.CRITICAL),
   ("OK_LOG", s.OK_LOG),
   ("CAREFUL_LOG", s.CAREFUL_LOG),
   ("WARNING_LOG", s.WARNING_LOG),
   ("CRITICAL_LOG", s.CRITICAL_LOG),
   ("PASSWORD", Curses.A_PROTECT),
   ("SELECTED", s.SELECTED),
   ("INFO", s.INFO),
   ("ERROR", s.SELECTED),
   ("SEPARATOR", s.SEPARATOR)]

/-- Lookup of one role in the style table returned by `get`. -/
def getStyle (s : ColorsState) (role : String) : Option Int :=
  (get s).lookup role

/-- The resolved color of a role: the pair content registered for the
pair slot its style code references. -/
def resolvedPair (s : ColorsState) (role : String) : Option (Option (Int × Int)) :=
  (getStyle s role).map fun st => s.pairs.lookup (pairIndexOf st)

/-- `dark_mode` (lines 269-281): redefine pair slot 1 from the
`forground`/`background` class attributes (note: the misspelled
`forground`, which `switchLDmode` did NOT update), repaint the surface
background with slot 1, clear, then re-run full construction via
`self.__init__(self.args)`.  No refresh call (commented out in the
source). -/
def dark_mode (args : Args) (caps : Caps) (s : ColorsState) : ColorsState :=
  let s := init_pair s 1 s.forground s.background
  let s := bkgd s 1
  let s := clear s
  glances_init args caps s

/-- `light_mode` (lines 240-265): redefine pair slot 1 from the
correctly spelled `foreground` attribute (assigned just before by
`switchLDmode`, hence the `Option` read never falls back) and
`background`, repaint, clear, refresh, then re-run construction via
`self.__white_init__(self.args)`. -/
def light_mode (args : Args) (caps : Caps) (s : ColorsState) : ColorsState :=
  let s := init_pair s 1 (s.foreground.getD 0) s.background
  let s := bkgd s 1
  let s := clear s
  let s := refresh s
  white_init args caps s

/-- `switchLDmode` (lines 211-237): in mode "dark", assign the sentinel
-1 to the `foreground` attribute (a new, correctly spelled name) and to
`background`, rebuild monochrome styles, then run `dark_mode` under
`curses.wrapper`; otherwise assign black/white, rebuild monochrome
styles, then run `light_mode`.  The method ends by returning
`self.get()`; the returned dict is `get` of the resulting state. -/
def switchLDmode (args : Args) (caps : Caps) (s : ColorsState) : ColorsState :=
  if s.mode = "dark" then
    let s := { s with foreground := some (-1), background := -1 }
    let s := define_bw s
    dark_mode args caps s
  else
    let s := { s with foreground := some Curses.COLOR_BLACK,
                      background := Curses.COLOR_WHITE }
    let s := define_bw s
    light_mode args caps s

/-- The role names, in table order, of the style table the code returns;
these are exactly the names the spec's Glossary lists. -/
def roleNames : List String := (get emptyState).map Prod.fst

/-- Modelled from the spec (for comparison with the code's table): the
list of SemanticRole names in the spec's Glossary, in the Glossary's
order. -/
def glossaryRoles : List String :=
  ["DEFAULT", "UNDERLINE", "BOLD", "SORT", "OK", "MAX", "FILTER", "TITLE",
   "PROCESS", "PROCESS_SELECTED", "STATUS", "NICE", "CPU_TIME", "CAREFUL",
   "WARNING", "CRITICAL", "OK_LOG", "CAREFUL_LOG", "WARNING_LOG",
   "CRITICAL_LOG", "PASSWORD", "SELECTED", "INFO", "ERROR", "SEPARATOR"]

/-- Modelled from the spec (section 4.1): extended color support means
more than 8 colors; this is also exactly the guard of line 134. -/
def extendedColorSupported (caps : Caps) : Bool := decide (8 < caps.COLORS)

/-- Equality of the observable theme: mode, baseline and the full style
table (role for role). -/
def themeEq (s t : ColorsState) : Prop :=
  s.mode = t.mode ∧ s.forground = t.forground ∧
  s.background = t.background ∧ get s = get t

instance (s t : ColorsState) : Decidable (themeEq s t) := by
  unfold themeEq; infer_instance

/-- A freshly constructed object: `__white_init__` when `dark`, else
`__init__`.  Every state in which `switchLDmode` or `get` can be called
is the image of one of the two constructors, since both switch branches
end by re-running a constructor. -/
def mkState (args : Args) (caps : Caps) (dark : Bool) : ColorsState :=
  if dark then white_init args caps emptyState
  else glances_init args caps emptyState

/-- A freshly constructed object over an arbitrary previous state
`s0` (both constructors overwrite every attribute that `get` and
`switchLDmode` read, so `s0` only persists in the backend registry and
trace). -/
def mkStateFrom (args : Args) (caps : Caps) (dark : Bool)
    (s0 : ColorsState) : ColorsState :=
  if dark then white_init args caps s0 else glances_init args caps s0

/-- The glossary roles other than the three `_LOG` roles whose resolved
colors depend on the background-highlight flag. -/
def nonLogRoles : List String :=
  glossaryRoles.filter fun r =>
    !(r == "OK_LOG" || r == "WARNING_LOG" || r == "CRITICAL_LOG")

end GlancesColors

namespace GlancesColors

/-- Claim C1, counterexample to the stated count: the style table the
code returns has 25 distinct role entries (matching the 25 names the
Glossary actually lists), so it is not a table of 24 roles. -/
theorem c1_counterexample_table_has_25_roles :
    (get emptyState).length = 25 ∧ ((get emptyState).map Prod.fst).Nodup ∧
    ¬ (get emptyState).length = 24 := by
  decide

/-- Claim C1 (amended): for every state, the table returned by `get`
has exactly the role names the Glossary lists (25 of them, not 24), in
particular a style entry exists for every listed role; no state yields
a partially filled table. -/
theorem c1_all_glossary_roles_present :
    ∀ s : ColorsState,
    (get s).map Prod.fst = glossaryRoles ∧ glossaryRoles.length = 25 ∧
    (glossaryRoles.all fun r => (getStyle s r).isSome) = true := by
  intro s
  exact ⟨rfl, rfl, rfl⟩

/-- Claim C2, counterexample: with color support, 256 colors, background
highlight enabled and bold enabled, the CRITICAL style is pair slot 6
with bold, not pair slot 2 with bold as the claim states. -/
theorem c2_counterexample_critical_not_slot2 :
    ¬ getStyle (glances_init ⟨false, false⟩ ⟨true, 256, false, false⟩ emptyState)
        "CRITICAL" = some (pyOr (Curses.color_pair 2) Curses.A_BOLD) ∧
    getStyle (glances_init ⟨false, false⟩ ⟨true, 256, false, false⟩ emptyState)
        "CRITICAL" = some (pyOr (Curses.color_pair 6) Curses.A_BOLD) := by
  decide

/-- Claim C2 (amended): in every such state, `get` resolves CRITICAL to
pair slot 6 combined with bold, where slot 6 is (red, baseline
background); slot 2, the pair (baseline foreground, red background), is
referenced by CRITICAL_LOG (with bold), not by CRITICAL. -/
theorem c2_amended_critical_is_slot6 :
    ∀ f9 fs dark : Bool,
    getStyle (mkState ⟨false, false⟩ ⟨true, 256, f9, fs⟩ dark) "CRITICAL" =
      some (pyOr (Curses.color_pair 6) Curses.A_BOLD) ∧
    pairIndexOf (pyOr (Curses.color_pair 6) Curses.A_BOLD) = 6 ∧
    (mkState ⟨false, false⟩ ⟨true, 256, f9, fs⟩ dark).pairs.lookup 6 =
      some (Curses.COLOR_RED, (mkState ⟨false, false⟩ ⟨true, 256, f9, fs⟩ dark).background) ∧
    getStyle (mkState ⟨false, false⟩ ⟨true, 256, f9, fs⟩ dark) "CRITICAL_LOG" =
      some (pyOr (Curses.color_pair 2) Curses.A_BOLD) ∧
    (mkState ⟨false, false⟩ ⟨true, 256, f9, fs⟩ dark).pairs.lookup 2 =
      some ((mkState ⟨false, false⟩ ⟨true, 256, f9, fs⟩ dark).forground, Curses.COLOR_RED) := by
  decide

/-- Claim C10: in every state, the style table satisfies the aliasing
invariants of the `get` dict: PROCESS and STATUS equal OK, MAX is OK
combined with the configured bold modifier, PROCESS_SELECTED is OK
combined with underline, and ERROR equals SELECTED. -/
theorem c10_alias_invariants :
    ∀ s : ColorsState,
    getStyle s "PROCESS" = getStyle s "OK" ∧
    getStyle s "STATUS" = getStyle s "OK" ∧
    getStyle s "MAX" = (getStyle s "OK").map (fun x => pyOr x s.A_BOLD) ∧
    getStyle s "PROCESS_SELECTED" =
      (getStyle s "OK").map (fun x => pyOr x Curses.A_UNDERLINE) ∧
    getStyle s "ERROR" = getStyle s "SELECTED" := by
  intro s
  exact ⟨rfl, rfl, rfl, rfl, rfl⟩

end GlancesColors

namespace GlancesColors

/-- Claim C3, counterexample: starting from the state whose mode is
"dark" (baseline black on white), one call to `switchLDmode` sets the
baseline to the terminal-default sentinel (-1, -1), not to
(black, white) as the claim states. -/
theorem c3_counterexample_first_switch_gives_sentinel :
    (white_init ⟨false, false⟩ ⟨true, 256, false, false⟩ emptyState).mode = "dark" ∧
    (switchLDmode ⟨false, false⟩ ⟨true, 256, false, false⟩
      (white_init ⟨false, false⟩ ⟨true, 256, false, false⟩ emptyState)).forground = -1 ∧
    (switchLDmode ⟨false, false⟩ ⟨true, 256, false, false⟩
      (white_init ⟨false, false⟩ ⟨true, 256, false, false⟩ emptyState)).background = -1 ∧
    ¬ ((switchLDmode ⟨false, false⟩ ⟨true, 256, false, false⟩
          (white_init ⟨false, false⟩ ⟨true, 256, false, false⟩ emptyState)).forground =
        Curses.COLOR_BLACK ∧
       (switchLDmode ⟨false, false⟩ ⟨true, 256, false, false⟩
          (white_init ⟨false, false⟩ ⟨true, 256, false, false⟩ emptyState)).background =
        Curses.COLOR_WHITE) := by
  decide

/-- Claim C3 (amended): for a color-capable theme whose current mode is
"dark", one call to `switchLDmode` sets the baseline to the
terminal-default sentinel (-1, -1) and the mode to "light"; a second
call sets the baseline to foreground = black, background = white and
the mode back to "dark"; after each call pair slot 1 holds exactly the
resulting baseline. -/
theorem c3_amended_switch_sequence_from_dark :
    ∀ db dbg f9 fs big : Bool,
    (white_init ⟨db, dbg⟩ ⟨true, if big then 256 else 8, f9, fs⟩ emptyState).mode = "dark" ∧
    (switchLDmode ⟨db, dbg⟩ ⟨true, if big then 256 else 8, f9, fs⟩
      (white_init ⟨db, dbg⟩ ⟨true, if big then 256 else 8, f9, fs⟩ emptyState)).mode = "light" ∧
    (switchLDmode ⟨db, dbg⟩ ⟨true, if big then 256 else 8, f9, fs⟩
      (white_init ⟨db, dbg⟩ ⟨true, if big then 256 else 8, f9, fs⟩ emptyState)).forground = -1 ∧
    (switchLDmode ⟨db, dbg⟩ ⟨true, if big then 256 else 8, f9, fs⟩
      (white_init ⟨db, dbg⟩ ⟨true, if big then 256 else 8, f9, fs⟩ emptyState)).background = -1 ∧
    (switchLDmode ⟨db, dbg⟩ ⟨true, if big then 256 else 8, f9, fs⟩
      (white_init ⟨db, dbg⟩ ⟨true, if big then 256 else 8, f9, fs⟩ emptyState)).pairs.lookup 1 =
      some (-1, -1) ∧
    (switchLDmode ⟨db, dbg⟩ ⟨true, if big then 256 else 8, f9, fs⟩
      (switchLDmode ⟨db, dbg⟩ ⟨true, if big then 256 else 8, f9, fs⟩
        (white_init ⟨db, dbg⟩ ⟨true, if big then 256 else 8, f9, fs⟩ emptyState))).mode = "dark" ∧
    (switchLDmode ⟨db, dbg⟩ ⟨true, if big then 256 else 8, f9, fs⟩
      (switchLDmode ⟨db, dbg⟩ ⟨true, if big then 256 else 8, f9, fs⟩
        (white_init ⟨db, dbg⟩ ⟨true, if big then 256 else 8, f9, fs⟩ emptyState))).forground =
      Curses.COLOR_BLACK ∧
    (switchLDmode ⟨db, dbg⟩ ⟨true, if big then 256 else 8, f9, fs⟩
      (switchLDmode ⟨db, dbg⟩ ⟨true, if big then 256 else 8, f9, fs⟩
        (white_init ⟨db, dbg⟩ ⟨true, if big then 256 else 8, f9, fs⟩ emptyState))).background =
      Curses.COLOR_WHITE ∧
    (switchLDmode ⟨db, dbg⟩ ⟨true, if big then 256 else 8, f9, fs⟩
      (switchLDmode ⟨db, dbg⟩ ⟨true, if big then 256 else 8, f9, fs⟩
        (white_init ⟨db, dbg⟩ ⟨true, if big then 256 else 8, f9, fs⟩ emptyState))).pairs.lookup 1 =
      some (Curses.COLOR_BLACK, Curses.COLOR_WHITE) := by
  decide

end GlancesColors

namespace GlancesColors

/-- Claim C4: from every starting theme state (both constructors, every
flag and capability combination, over an arbitrary prior state), two
successive calls to `switchLDmode` return the theme to its starting
mode, with an identical baseline and a style table identical role for
role. -/
theorem c4_double_switch_restores_theme :
    ∀ (db dbg hc big f9 fs dark : Bool) (s0 : ColorsState),
    themeEq
      (switchLDmode ⟨db, dbg⟩ ⟨hc, if big then 256 else 8, f9, fs⟩
        (switchLDmode ⟨db, dbg⟩ ⟨hc, if big then 256 else 8, f9, fs⟩
          (mkStateFrom ⟨db, dbg⟩ ⟨hc, if big then 256 else 8, f9, fs⟩ dark s0)))
      (mkStateFrom ⟨db, dbg⟩ ⟨hc, if big then 256 else 8, f9, fs⟩ dark s0) := by
  intro db dbg hc big f9 fs dark s0
  cases db <;> cases dbg <;> cases hc <;> cases big <;> cases f9 <;> cases fs <;>
    cases dark <;> exact ⟨rfl, rfl, rfl, rfl⟩

end GlancesColors

namespace GlancesColors

/-- Claim C6, counterexample: in the monochrome path the DEFAULT entry
is the raw `background` class attribute (the terminal-default sentinel
-1 after `__init__`), not the plain `A_NORMAL` style; so DEFAULT (and
OK, OK_LOG, STATUS) are not plain, emphasis-only styles.  CRITICAL does
equal reverse-video. -/
theorem c6_counterexample_bw_default_not_plain :
    getStyle (glances_init ⟨false, false⟩ ⟨false, 0, false, false⟩ emptyState)
      "DEFAULT" = some (-1) ∧
    ¬ getStyle (glances_init ⟨false, false⟩ ⟨false, 0, false, false⟩ emptyState)
      "DEFAULT" = some Curses.A_NORMAL ∧
    getStyle (glances_init ⟨false, false⟩ ⟨false, 0, false, false⟩ emptyState)
      "OK" = some (-1) ∧
    getStyle (glances_init ⟨false, false⟩ ⟨false, 0, false, false⟩ emptyState)
      "CRITICAL" = some Curses.A_REVERSE := by
  decide

/-- Claim C6 (amended): when color is unsupported the builder yields,
for every flag/mode combination, exactly the table below: NICE,
CPU_TIME, CAREFUL, CAREFUL_LOG, INFO, FILTER, SELECTED and TITLE are
the configured bold (0 when bold is disabled); WARNING and WARNING_LOG
are underline; CRITICAL and CRITICAL_LOG are reverse-video; but
DEFAULT, OK, OK_LOG, STATUS and SEPARATOR carry the raw baseline
background value (the -1 sentinel, or white = 7 in the black-on-white
mode), which is not the plain `A_NORMAL` style. -/
theorem c6_amended_bw_table :
    ∀ (db dbg f9 fs dark : Bool) (n : Nat),
    get (mkState ⟨db, dbg⟩ ⟨false, n, f9, fs⟩ dark) =
      [("DEFAULT", if dark then Curses.COLOR_WHITE else -1),
       ("UNDERLINE", Curses.A_UNDERLINE),
       ("BOLD", if db then 0 else Curses.A_BOLD),
       ("SORT", pyOr Curses.A_UNDERLINE (if db then 0 else Curses.A_BOLD)),
       ("OK", if dark then Curses.COLOR_WHITE else -1),
       ("MAX", pyOr (if dark then Curses.COLOR_WHITE else -1)
                 (if db then 0 else Curses.A_BOLD)),
       ("FILTER", if db then 0 else Curses.A_BOLD),
       ("TITLE", if db then 0 else Curses.A_BOLD),
       ("PROCESS", if dark then Curses.COLOR_WHITE else -1),
       ("PROCESS_SELECTED", pyOr (if dark then Curses.COLOR_WHITE else -1)
                              Curses.A_UNDERLINE),
       ("STATUS", if dark then Curses.COLOR_WHITE else -1),
       ("NICE", if db then 0 else Curses.A_BOLD),
       ("CPU_TIME", if db then 0 else Curses.A_BOLD),
       ("CAREFUL", if db then 0 else Curses.A_BOLD),
       ("WARNING", Curses.A_UNDERLINE),
       ("CRITICAL", Curses.A_REVERSE),
       ("OK_LOG", if dark then Curses.COLOR_WHITE else -1),
       ("CAREFUL_LOG", if db then 0 else Curses.A_BOLD),
       ("WARNING_LOG", Curses.A_UNDERLINE),
       ("CRITICAL_LOG", Curses.A_REVERSE),
       ("PASSWORD", Curses.A_PROTECT),
       ("SELECTED", if db then 0 else Curses.A_BOLD),
       ("INFO", if db then 0 else Curses.A_BOLD),
       ("ERROR", if db then 0 else Curses.A_BOLD),
       ("SEPARATOR", if dark then Curses.COLOR_WHITE else -1)] ∧
    (if dark then Curses.COLOR_WHITE else -1) ≠ Curses.A_NORMAL := by
  intro db dbg f9 fs dark n
  cases db <;> cases dark <;> exact ⟨rfl, by decide⟩

end GlancesColors

namespace GlancesColors

/-- Claim C9, counterexample: flipping the background-highlight flag
leaves the CRITICAL role's resolved style and resolved color pair
(slot 6) unchanged — the claim says CRITICAL's resolved color changes.
OK and WARNING are likewise unchanged; it is CRITICAL_LOG (slot 2)
whose resolved colors actually flip. -/
theorem c9_counterexample_critical_unchanged :
    resolvedPair (glances_init ⟨false, false⟩ ⟨true, 256, false, false⟩ emptyState)
        "CRITICAL" =
      resolvedPair (glances_init ⟨false, true⟩ ⟨true, 256, false, false⟩ emptyState)
        "CRITICAL" ∧
    resolvedPair (glances_init ⟨false, false⟩ ⟨true, 256, false, false⟩ emptyState)
        "OK" =
      resolvedPair (glances_init ⟨false, true⟩ ⟨true, 256, false, false⟩ emptyState)
        "OK" ∧
    resolvedPair (glances_init ⟨false, false⟩ ⟨true, 256, false, false⟩ emptyState)
        "WARNING" =
      resolvedPair (glances_init ⟨false, true⟩ ⟨true, 256, false, false⟩ emptyState)
        "WARNING" ∧
    getStyle (glances_init ⟨false, false⟩ ⟨true, 256, false, false⟩ emptyState)
        "CRITICAL" =
      getStyle (glances_init ⟨false, true⟩ ⟨true, 256, false, false⟩ emptyState)
        "CRITICAL" ∧
    ¬ resolvedPair (glances_init ⟨false, false⟩ ⟨true, 256, false, false⟩ emptyState)
        "CRITICAL_LOG" =
      resolvedPair (glances_init ⟨false, true⟩ ⟨true, 256, false, false⟩ emptyState)
        "CRITICAL_LOG" := by
  decide

/-- Claim C9 (amended): with the same baseline, capabilities and bold
setting, flipping the background-highlight flag never changes any
role's style code (the returned tables are identical), and changes the
resolved color pairs of at most the three `_LOG` roles OK_LOG,
WARNING_LOG and CRITICAL_LOG (which reference pair slots 3, 5 and 2);
every other role, including OK, WARNING and CRITICAL themselves,
resolves identically under both settings. -/
theorem c9_amended_only_log_colors_change :
    ∀ db f9 fs big dark hc : Bool,
    get (mkState ⟨db, false⟩ ⟨hc, if big then 256 else 8, f9, fs⟩ dark) =
      get (mkState ⟨db, true⟩ ⟨hc, if big then 256 else 8, f9, fs⟩ dark) ∧
    nonLogRoles.map
        (resolvedPair (mkState ⟨db, false⟩ ⟨hc, if big then 256 else 8, f9, fs⟩ dark)) =
      nonLogRoles.map
        (resolvedPair (mkState ⟨db, true⟩ ⟨hc, if big then 256 else 8, f9, fs⟩ dark)) := by
  decide

end GlancesColors

namespace GlancesColors

/-- Claim C5 (the code contradicts it): starting from the "dark" state
(baseline black on white, 256 colors), `switchLDmode` runs the dark
branch, and the backend calls it appends show that the surface repaint
(bkgd of slot 1, then clear) happens BEFORE the rebuild of pair slot 1
and of the style table under the new baseline: the repaint uses pair
slot 1 = (black, -1), i.e. the stale `forground` of the previous
baseline combined with the already-updated background (`switchLDmode`
only updated the differently spelled `foreground` attribute, which
`dark_mode` never reads); the slot-1 definition under the new baseline
(-1, -1) only happens afterwards, inside the `__init__` re-run. -/
theorem c5_dark_switch_repaints_before_rebuild :
    (white_init ⟨false, false⟩ ⟨true, 256, false, false⟩ emptyState).forground =
      Curses.COLOR_BLACK ∧
    (white_init ⟨false, false⟩ ⟨true, 256, false, false⟩ emptyState).background =
      Curses.COLOR_WHITE ∧
    (switchLDmode ⟨false, false⟩ ⟨true, 256, false, false⟩
      (white_init ⟨false, false⟩ ⟨true, 256, false, false⟩ emptyState)).forground = -1 ∧
    (switchLDmode ⟨false, false⟩ ⟨true, 256, false, false⟩
      (white_init ⟨false, false⟩ ⟨true, 256, false, false⟩ emptyState)).background = -1 ∧
    (switchLDmode ⟨false, false⟩ ⟨true, 256, false, false⟩
        (white_init ⟨false, false⟩ ⟨true, 256, false, false⟩ emptyState)).trace.drop
      (white_init ⟨false, false⟩ ⟨true, 256, false, false⟩ emptyState).trace.length =
      [Ev.init_pair 1 0 (-1), Ev.bkgd 1 (some (0, -1)), Ev.clear,
       Ev.init_pair 0 (-1) (-1), Ev.init_pair 1 (-1) (-1), Ev.init_pair 2 (-1) 1,
       Ev.init_pair 3 0 2, Ev.init_pair 5 (-1) 5, Ev.init_pair 4 4 (-1),
       Ev.init_pair 6 1 (-1), Ev.init_pair 7 2 (-1), Ev.init_pair 8 5 (-1),
       Ev.init_pair 9 6 (-1), Ev.init_pair 10 3 (-1), Ev.init_color 11 500 500 500,
       Ev.init_pair 11 (-1) (-1)] ∧
    ((switchLDmode ⟨false, false⟩ ⟨true, 256, false, false⟩
        (white_init ⟨false, false⟩ ⟨true, 256, false, false⟩ emptyState)).trace.drop
      (white_init ⟨false, false⟩ ⟨true, 256, false, false⟩ emptyState).trace.length)[1]? =
      some (Ev.bkgd 1 (some (Curses.COLOR_BLACK, -1))) ∧
    ((switchLDmode ⟨false, false⟩ ⟨true, 256, false, false⟩
        (white_init ⟨false, false⟩ ⟨true, 256, false, false⟩ emptyState)).trace.drop
      (white_init ⟨false, false⟩ ⟨true, 256, false, false⟩ emptyState).trace.length)[4]? =
      some (Ev.init_pair 1 (-1) (-1)) := by
  decide

end GlancesColors

namespace GlancesColors

/-- Claim C7: with color support and at most 8 colors, extended color
support is off, pair slots 9, 10 and 11 are never defined, every role's
style code references a pair slot below 9, and FILTER resolves to the
configured bold on the baseline pair (pair field 0), with no distinct
color. -/
theorem c7_low_color_no_extended_slots (n : Nat) (h : n ≤ 8) :
    ∀ db dbg f9 fs dark : Bool,
    extendedColorSupported ⟨true, n, f9, fs⟩ = false ∧
    (mkState ⟨db, dbg⟩ ⟨true, n, f9, fs⟩ dark).pairs.lookup 9 = none ∧
    (mkState ⟨db, dbg⟩ ⟨true, n, f9, fs⟩ dark).pairs.lookup 10 = none ∧
    (mkState ⟨db, dbg⟩ ⟨true, n, f9, fs⟩ dark).pairs.lookup 11 = none ∧
    (((get (mkState ⟨db, dbg⟩ ⟨true, n, f9, fs⟩ dark)).map fun kv =>
        pairIndexOf kv.2).all fun i => decide (i < 9)) = true ∧
    getStyle (mkState ⟨db, dbg⟩ ⟨true, n, f9, fs⟩ dark) "FILTER" =
      some (mkState ⟨db, dbg⟩ ⟨true, n, f9, fs⟩ dark).A_BOLD ∧
    pairIndexOf (mkState ⟨db, dbg⟩ ⟨true, n, f9, fs⟩ dark).FILTER = 0 := by
  interval_cases n <;> decide

/-- Witness for claim C7's theorem, at 8 colors and all flags off. -/
theorem c7_low_color_no_extended_slots_witness :
    8 ≤ 8 ∧
    (extendedColorSupported ⟨true, 8, false, false⟩ = false ∧
     (mkState ⟨false, false⟩ ⟨true, 8, false, false⟩ false).pairs.lookup 9 = none ∧
     (mkState ⟨false, false⟩ ⟨true, 8, false, false⟩ false).pairs.lookup 10 = none ∧
     (mkState ⟨false, false⟩ ⟨true, 8, false, false⟩ false).pairs.lookup 11 = none ∧
     (((get (mkState ⟨false, false⟩ ⟨true, 8, false, false⟩ false)).map fun kv =>
         pairIndexOf kv.2).all fun i => decide (i < 9)) = true ∧
     getStyle (mkState ⟨false, false⟩ ⟨true, 8, false, false⟩ false) "FILTER" =
       some (mkState ⟨false, false⟩ ⟨true, 8, false, false⟩ false).A_BOLD ∧
     pairIndexOf (mkState ⟨false, false⟩ ⟨true, 8, false, false⟩ false).FILTER = 0) :=
  ⟨by decide, c7_low_color_no_extended_slots 8 (by decide) false false false false false⟩

end GlancesColors

namespace GlancesColors

/-- With more than 8 colors the construction only depends on whether
the threshold is passed, not on the exact count: the state equals the
9-color instance. -/
theorem mkState_gt8_eq (args : Args) (n : Nat) (f9 fs dark : Bool) (h : 8 < n) :
    mkState args ⟨true, n, f9, fs⟩ dark = mkState args ⟨true, 9, f9, fs⟩ dark := by
  have h9 : (8 : Nat) < 9 := by norm_num
  simp [mkState, white_init, glances_init, define_colors, h, h9]

/-- Claim C8: when the backend rejects the slot-11 custom color
definition (the `sep_fails` behaviour, caught by the bare
`except: pass`), no error escapes the builder (it is a total function),
pair slot 11 is left unassigned, and SEPARATOR keeps its slot-1 value,
so it equals the DEFAULT entry. -/
theorem c8_separator_fallback (n : Nat) (h : 8 < n) :
    ∀ db dbg f9 dark : Bool,
    (mkState ⟨db, dbg⟩ ⟨true, n, f9, true⟩ dark).pairs.lookup 11 = none ∧
    getStyle (mkState ⟨db, dbg⟩ ⟨true, n, f9, true⟩ dark) "SEPARATOR" =
      some (Curses.color_pair 1) ∧
    getStyle (mkState ⟨db, dbg⟩ ⟨true, n, f9, true⟩ dark) "SEPARATOR" =
      getStyle (mkState ⟨db, dbg⟩ ⟨true, n, f9, true⟩ dark) "DEFAULT" := by
  intro db dbg f9 dark
  rw [mkState_gt8_eq ⟨db, dbg⟩ n f9 true dark h]
  revert db dbg f9 dark
  decide

/-- Witness for claim C8's theorem, at 256 colors and all flags off. -/
theorem c8_separator_fallback_witness :
    8 < 256 ∧
    ((mkState ⟨false, false⟩ ⟨true, 256, false, true⟩ false).pairs.lookup 11 = none ∧
     getStyle (mkState ⟨false, false⟩ ⟨true, 256, false, true⟩ false) "SEPARATOR" =
       some (Curses.color_pair 1) ∧
     getStyle (mkState ⟨false, false⟩ ⟨true, 256, false, true⟩ false) "SEPARATOR" =
       getStyle (mkState ⟨false, false⟩ ⟨true, 256, false, true⟩ false) "DEFAULT") :=
  ⟨by decide, c8_separator_fallback 256 (by decide) false false false false⟩

end GlancesColors
